import Mathlib

/-!
Verification of the polling/dedup/dispatch/supervision core of the
HTB-Discord service against its specification.

The definitions below are a shallow embedding of the Python source:

* `utils/database.py` (DatabaseManager): the SQLite-backed stores are
  modelled as lists of rows kept in rowid (insertion) order, which is the
  order in which SQLite's table scan returns rows for these append-only
  tables (rows are never deleted anywhere in the repository, and the
  `links` table uses AUTOINCREMENT ids).
* `modules/machines.py` (MachineMonitor) and `modules/challenges.py`
  (ChallengeMonitor): the poll/diff/dispatch cycle, including the exact
  dictionary-access behaviour of the Python code (a `d['k']` access on a
  missing key raises KeyError; `d.get('k')` returns None).  Record fields
  are therefore `Option`-valued, with `none` meaning the key is absent.
* `service.py` (HTBDiscordService.restart / _run_discord_clients): the
  bounded restart policy.

External collaborators (the Discord API, the HTB API, image downloads)
are modelled by an explicit environment that fixes each outbound call's
outcome; every failure branch written in the repository's own code
(early returns, helper functions catching exceptions and returning
False/None) is an ordinary value, while operations the source leaves
unguarded (a raw `channel.send`, a KeyError from a dict access, a
ValueError from `datetime.fromisoformat`) are an `Except.error` that
aborts the cycle, exactly as an exception propagates in the source.
-/

/-! ## Work Queue Store: the `links` SQLite table (utils/database.py) -/

/-- One row of the `links` table:
`id INTEGER PRIMARY KEY AUTOINCREMENT, channel_name TEXT, link TEXT,
processed INTEGER DEFAULT 0, created_at TIMESTAMP DEFAULT CURRENT_TIMESTAMP`.
`created_at` insertion order coincides with list order in this model. -/
structure LinkRow where
  id : Nat
  channel_name : String
  link : String
  processed : Bool
  deriving DecidableEq, Repr

/-- The `links` table, rows in rowid (= insertion) order. -/
abbrev LinksDb := List LinkRow

/-- The next AUTOINCREMENT rowid: one more than the largest id ever used
(ids are never deleted, so the largest id present). Empty table starts at 1. -/
def nextLinkId (db : LinksDb) : Nat :=
  (db.map LinkRow.id).foldr max 0 + 1

/-- `DatabaseManager.save_link` (database.py:183-200): SELECT for an existing
row with the same link; if none, INSERT (channel_name, link) and return True,
else return False. -/
def save_link (db : LinksDb) (channel_name link : String) : LinksDb × Bool :=
  if db.any (fun r => r.link = link) then
    (db, false)
  else
    (db ++ [⟨nextLinkId db, channel_name, link, false⟩], true)

/-- `DatabaseManager.get_unprocessed_links` (database.py:202-214):
`SELECT id, channel_name, link FROM links WHERE processed = 0 LIMIT ?`.
The query has no ORDER BY; SQLite's table scan yields rowid order, i.e. the
list order of this model. -/
def get_unprocessed_links (db : LinksDb) (limit : Nat) : List (Nat × String × String) :=
  ((db.filter (fun r => !r.processed)).take limit).map
    (fun r => (r.id, r.channel_name, r.link))

/-- `DatabaseManager.mark_link_processed` (database.py:216-227):
`UPDATE links SET processed = 1 WHERE id = ?`, then return True.  The row
count of the UPDATE is never inspected, so the call returns True whether or
not a row with that id exists. -/
def mark_link_processed (db : LinksDb) (link_id : Nat) : LinksDb × Bool :=
  (db.map (fun r => if r.id = link_id then ⟨r.id, r.channel_name, r.link, true⟩ else r),
   true)

/-- Strictly increasing rowids along the table, the invariant every state
reachable through `save_link` / `mark_link_processed` satisfies. -/
abbrev idsAscending (db : LinksDb) : Prop :=
  List.Pairwise (fun a b => a.id < b.id) db

/-! ## Feed records and the machines Dedup Store
(modules/machines.py, utils/database.py) -/

/-- A machine record as parsed from the HTB API response.  Each field models
one dictionary key the repository reads; `none` means the key is absent, so a
Python `machine['k']` access on it raises KeyError while `machine.get('k')`
returns None.  Fields the code only forwards verbatim (avatar, firstCreator,
retiring) are handled with `.get` fallbacks in the source and never decide
control flow modelled here. -/
structure MachineRec where
  id : Option Int
  name : Option String
  os : Option String
  difficulty_text : Option String
  release : Option String
  deriving DecidableEq, Repr

/-- One row of `tracked_machines`
(id INTEGER PRIMARY KEY, name, os, difficulty, release_date). -/
structure MachineRow where
  id : Int
  name : String
  os : String
  difficulty : String
  release_date : String
  deriving DecidableEq, Repr

abbrev MachinesDb := List MachineRow

/-- `DatabaseManager.machine_exists` (database.py:102-107). -/
def machine_exists (db : MachinesDb) (machine_id : Int) : Bool :=
  db.any (fun r => r.id = machine_id)

/-- `DatabaseManager.add_machine` (database.py:109-129): INSERT built from
`machine['id']`, `machine['name']`, `machine['os']`, `machine['difficulty_text']`,
`machine['release']` inside a try block.  A missing key raises KeyError and a
duplicate PRIMARY KEY raises IntegrityError; both are caught and the function
returns False without inserting. -/
def add_machine (db : MachinesDb) (m : MachineRec) : MachinesDb × Bool :=
  match m.id, m.name, m.os, m.difficulty_text, m.release with
  | some i, some n, some o, some d, some rel =>
    if machine_exists db i then (db, false)
    else (db ++ [⟨i, n, o, d, rel⟩], true)
  | _, _, _, _, _ => (db, false)

/-! ## The machine Notifier: delivery sub-steps (modules/machines.py) -/

/-- The environment fixing the outcome of every outbound Discord call one
delivery makes, together with the monitor's feature flags.  The `..Ok`
fields summarise failure branches the source handles by an early return or
through a helper that catches its own exceptions; `sendRaises` models the one
unguarded outbound call (`channel.send`, machines.py:153), whose only failure
mode is a raised exception; `releaseParses` tells whether
`datetime.fromisoformat` accepts a given release string (machines.py:175). -/
structure MachineEnv where
  send_announcements : Bool
  create_events : Bool
  create_forum_threads : Bool
  announceChannelOk : Bool
  sendRaises : Bool
  voiceChannelOk : Bool
  releaseParses : String → Bool
  eventCreateOk : Bool
  forumChannelOk : Bool
  threadCreateOk : Bool

/-- `MachineMonitor.send_machine_announcement` (machines.py:106-155).
Unconfigured/unresolvable/forum channel or missing permissions: early return
(a completed, failed sub-step).  Otherwise `create_machine_embed` reads
`machine['difficulty_text']`, `machine['name']`, `machine['release']`,
`machine['os']` (discord_helpers.py:119-128) — a missing key raises — and the
final `channel.send` either succeeds or raises. -/
def send_machine_announcement (env : MachineEnv) (m : MachineRec) : Except Unit Bool :=
  if !env.announceChannelOk then .ok false
  else match m.difficulty_text, m.name, m.release, m.os with
    | some _, some _, some _, some _ =>
        if env.sendRaises then .error () else .ok true
    | _, _, _, _ => .error ()

/-- `MachineMonitor.create_machine_event` (machines.py:157-196).  Invalid or
unconfigured voice channel: early return.  Otherwise `machine['name']`,
`machine['os']`, `machine['difficulty_text']` are read, `machine['release']`
is parsed by `datetime.fromisoformat` (raises on a malformed string), and
`DiscordHelpers.create_scheduled_event` — which catches its own errors —
reports success or failure. -/
def create_machine_event (env : MachineEnv) (m : MachineRec) : Except Unit Bool :=
  if !env.voiceChannelOk then .ok false
  else match m.name, m.os, m.difficulty_text, m.release with
    | some _, some _, some _, some rel =>
        if env.releaseParses rel then .ok env.eventCreateOk else .error ()
    | _, _, _, _ => .error ()

/-- `MachineMonitor.create_machine_forum_thread` (machines.py:198-262).
Invalid or unconfigured forum channel: early return.  Otherwise
`machine['name']`, `machine['os']`, `machine['difficulty_text']` are read and
`DiscordHelpers.create_forum_thread` — which catches its own errors — returns
a thread or None. -/
def create_machine_forum_thread (env : MachineEnv) (m : MachineRec) : Except Unit Bool :=
  if !env.forumChannelOk then .ok false
  else match m.name, m.os, m.difficulty_text with
    | some _, some _, some _ => .ok env.threadCreateOk
    | _, _, _ => .error ()

/-- One attempted delivery sub-step with its success flag. -/
inductive StepResult where
  | announce (ok : Bool)
  | eventCreate (ok : Bool)
  | threadCreate (ok : Bool)
  deriving DecidableEq, Repr

/-- `MachineMonitor.process_new_machine` (machines.py:92-104): run the three
sub-steps gated by their feature flags, in order; a raised exception
propagates, a failed-but-handled sub-step does not stop the later ones. -/
def process_new_machine (env : MachineEnv) (m : MachineRec) :
    Except Unit (List StepResult) := do
  let s1 ← if env.send_announcements then
      (send_machine_announcement env m).map (fun b => [StepResult.announce b])
    else pure []
  let s2 ← if env.create_events then
      (create_machine_event env m).map (fun b => [StepResult.eventCreate b])
    else pure []
  let s3 ← if env.create_forum_threads then
      (create_machine_forum_thread env m).map (fun b => [StepResult.threadCreate b])
    else pure []
  pure (s1 ++ s2 ++ s3)

/-- Outcome of one dispatch cycle: the dedup store afterwards, the ids for
which `process_new_machine` was invoked, the delivery sub-steps performed per
id, and whether an exception escaped the cycle (to be caught by the loop in
`MachineMonitor.start`). -/
structure MachCycleResult where
  db : MachinesDb
  dispatched : List Int
  steps : List (Int × List StepResult)
  aborted : Bool
  deriving Repr

/-- `MachineMonitor.check_new_machines` (machines.py:80-90): for each fetched
machine, read `machine['id']` (KeyError aborts the whole cycle), filter
against the Dedup Store, log with `machine['name']` (KeyError aborts), invoke
`process_new_machine` (a raised exception aborts the cycle after the
invocation), then `add_machine` regardless of the delivery outcome. -/
def check_new_machines (env : MachineEnv) : MachinesDb → List MachineRec → MachCycleResult
  | db, [] => ⟨db, [], [], false⟩
  | db, m :: rest =>
    match m.id with
    | none => ⟨db, [], [], true⟩
    | some machine_id =>
      if machine_exists db machine_id then
        check_new_machines env db rest
      else
        match m.name with
        | none => ⟨db, [], [], true⟩
        | some _ =>
          match process_new_machine env m with
          | .error _ => ⟨db, [machine_id], [], true⟩
          | .ok ss =>
            let db2 := (add_machine db m).1
            let r := check_new_machines env db2 rest
            ⟨r.db, machine_id :: r.dispatched, (machine_id, ss) :: r.steps, r.aborted⟩

/-! ## The polling loop (MachineMonitor.start / fetch_machines) -/

/-- Outcome of the `requests.get` call in `fetch_machines`. -/
inductive FetchOutcome where
  | success (ms : List MachineRec)
  | httpFailure (status : Nat)
  | networkFailure
  deriving Repr

/-- `MachineMonitor.fetch_machines` (machines.py:67-78): HTTP 200 returns the
body's data list; a non-200 status or a raised network error is logged inside
the function and an empty list is returned to the caller. -/
def fetch_machines : FetchOutcome → List MachineRec
  | .success ms => ms
  | .httpFailure _ => []
  | .networkFailure => []

/-- Observable outcome of one iteration of the monitoring loop. -/
structure IterationResult where
  db : MachinesDb
  dispatched : List Int
  steps : List (Int × List StepResult)
  sleepSeconds : Nat
  deriving Repr

/-- One iteration of the while loop in `MachineMonitor.start`
(machines.py:54-60): run `check_new_machines` on what `fetch_machines`
returned, then sleep `poll_interval`; if an exception escaped the cycle, it is
caught here and the loop sleeps the fixed 60-second backoff instead. -/
def monitor_iteration (env : MachineEnv) (poll_interval : Nat) (db : MachinesDb)
    (fetched : FetchOutcome) : IterationResult :=
  let r := check_new_machines env db (fetch_machines fetched)
  ⟨r.db, r.dispatched, r.steps, if r.aborted then 60 else poll_interval⟩

/-! ## The Supervisor's restart policy (service.py) -/

/-- Supervision-level events of `HTBDiscordService`. -/
inductive SupervisorEvent where
  | restartAttempt (n : Nat)
  | stoppedPermanently
  deriving DecidableEq, Repr

/-- The event trace of `HTBDiscordService.restart` (service.py:96-108) driven
by a watcher that always fails immediately: `_run_discord_clients` observes
the failure and calls `restart()`; `restart` stops permanently once
`restart_count >= max_restarts`, and otherwise increments `restart_count`,
logs the attempt number, and recursively calls `start()`, whose watcher fails
again at once. -/
def restart_trace (max_restarts restart_count : Nat) : List SupervisorEvent :=
  if restart_count ≥ max_restarts then
    [.stoppedPermanently]
  else
    .restartAttempt (restart_count + 1) :: restart_trace max_restarts (restart_count + 1)
termination_by max_restarts - restart_count
decreasing_by omega

/-! ## The challenge watcher (modules/challenges.py) -/

/-- A challenge record as parsed from the HTB API response; `none` = key
absent, so `challenge['k']` raises KeyError and `challenge.get('k')` gives
None. -/
structure ChallengeRec where
  id : Option Int
  name : Option String
  category_name : Option String
  difficulty : Option String
  release_date : Option String
  deriving DecidableEq, Repr

/-- One row of `tracked_challenges`
(id INTEGER PRIMARY KEY, name, difficulty, category, release_date). -/
structure ChallengeRow where
  id : Int
  name : String
  difficulty : String
  category : String
  release_date : String
  deriving DecidableEq, Repr

abbrev ChallengesDb := List ChallengeRow

/-- `DatabaseManager.challenge_exists` (database.py:132-137). -/
def challenge_exists (db : ChallengesDb) (challenge_id : Int) : Bool :=
  db.any (fun r => r.id = challenge_id)

/-- `DatabaseManager.add_challenge` (database.py:139-159): INSERT built from
`challenge['id']`, `challenge['name']`, `challenge['difficulty']`,
`challenge['category_name']`, `challenge['release_date']` inside a try block;
a KeyError from a missing key or an IntegrityError from a duplicate PRIMARY
KEY is caught and the function returns False without inserting. -/
def add_challenge (db : ChallengesDb) (c : ChallengeRec) : ChallengesDb × Bool :=
  match c.id, c.name, c.difficulty, c.category_name, c.release_date with
  | some i, some n, some d, some cat, some rel =>
    if challenge_exists db i then (db, false)
    else (db ++ [⟨i, n, d, cat, rel⟩], true)
  | _, _, _, _, _ => (db, false)

/-- Python truthiness of `challenge.get(field)` for a text field: an absent
key (None) and an empty string are falsy. -/
def truthyStr : Option String → Bool
  | none => false
  | some s => if s = "" then false else true

/-- Python truthiness of `challenge.get('id')`: absent (None) and 0 are falsy. -/
def truthyInt : Option Int → Bool
  | none => false
  | some n => if n = 0 then false else true

/-- The validation loop in `ChallengeMonitor.process_new_challenge`
(challenges.py:94-99) over
required_fields = ['name', 'category_name', 'difficulty', 'release_date', 'id'],
returning early when the first `challenge.get(field)` is falsy. -/
def challengeFieldsValid (c : ChallengeRec) : Bool :=
  truthyStr c.name && truthyStr c.category_name && truthyStr c.difficulty &&
    truthyStr c.release_date && truthyInt c.id

/-- All five dictionary keys the INSERT of `add_challenge` accesses are
present (values may still be falsy). -/
def challengeKeysComplete (c : ChallengeRec) : Bool :=
  c.id.isSome && c.name.isSome && c.difficulty.isSome && c.category_name.isSome &&
    c.release_date.isSome

/-- `ChallengeMonitor.process_new_challenge` (challenges.py:92-111): validate
the five required fields, returning early (performing no side effect) when
one is missing or falsy; otherwise run the announcement/event/thread
sub-steps.  The sub-steps of a validated challenge are abstracted to the
single fact that delivery ran; the claims settled against this model concern
the validation path. -/
def process_new_challenge (c : ChallengeRec) : Bool :=
  challengeFieldsValid c

/-- Outcome of one challenge dispatch cycle: the dedup store afterwards, the
ids whose delivery sub-steps ran, and whether an exception escaped the cycle. -/
structure ChalCycleResult where
  db : ChallengesDb
  delivered : List Int
  aborted : Bool
  deriving Repr

/-- `ChallengeMonitor.check_new_challenges` (challenges.py:80-90): for each
fetched challenge, read `challenge['id']` (KeyError aborts the whole cycle),
filter against the Dedup Store, log with `challenge['name']` (KeyError
aborts), call `process_new_challenge`, then `add_challenge` — the add is not
conditional on the validation outcome. -/
def check_new_challenges : ChallengesDb → List ChallengeRec → ChalCycleResult
  | db, [] => ⟨db, [], false⟩
  | db, c :: rest =>
    match c.id with
    | none => ⟨db, [], true⟩
    | some challenge_id =>
      if challenge_exists db challenge_id then
        check_new_challenges db rest
      else
        match c.name with
        | none => ⟨db, [], true⟩
        | some _ =>
          let delivered := process_new_challenge c
          let db2 := (add_challenge db c).1
          let r := check_new_challenges db2 rest
          ⟨r.db, (if delivered then [challenge_id] else []) ++ r.delivered, r.aborted⟩

/-- Number of entries for machine id `i` in a cycle's delivery log. -/
def countSteps (i : Int) (steps : List (Int × List StepResult)) : Nat :=
  (steps.filter (fun s => s.1 = i)).length

/-! ## Theorems -/

/-! Helper lemmas about the links store. -/

theorem mem_id_le_foldr_max (l : List Nat) (x : Nat) (hx : x ∈ l) :
    x ≤ l.foldr max 0 := by
  induction l with
  | nil => cases hx
  | cons a t ih =>
    rcases List.mem_cons.mp hx with h | h
    · subst h; exact le_max_left _ _
    · exact le_trans (ih h) (le_max_right _ _)

theorem id_lt_nextLinkId (db : LinksDb) (r : LinkRow) (hr : r ∈ db) :
    r.id < nextLinkId db := by
  have h : r.id ≤ (db.map LinkRow.id).foldr max 0 :=
    mem_id_le_foldr_max _ _ (List.mem_map_of_mem LinkRow.id hr)
  unfold nextLinkId
  omega

/-- C4: for every state of the Work Queue Store whose rowids ascend along the
table (the invariant of every reachable state), `dequeue_batch` =
`get_unprocessed_links` returns the unprocessed items oldest first: the
returned ids are strictly increasing (ascending insertion order), and the
returned list is a subsequence of the table's own (projected) row order. -/
theorem c4_dequeue_oldest_first (db : LinksDb) (limit : Nat) (h : idsAscending db) :
    List.Pairwise (fun a b => a.1 < b.1) (get_unprocessed_links db limit) ∧
    List.Sublist (get_unprocessed_links db limit)
      (db.map (fun r => (r.id, r.channel_name, r.link))) := by
  constructor
  · unfold get_unprocessed_links
    rw [List.pairwise_map]
    exact List.Pairwise.sublist ((List.take_sublist _ _).trans (List.filter_sublist _)) h
  · exact List.Sublist.map _ ((List.take_sublist _ _).trans (List.filter_sublist _))

/-- Witness for C4 at a concrete three-row store. -/
theorem c4_witness :
    List.Pairwise (fun a b => a.1 < b.1)
      (get_unprocessed_links
        ([⟨1, "general", "u1", false⟩, ⟨2, "general", "u2", true⟩,
          ⟨3, "dev", "u3", false⟩] : LinksDb) 10) ∧
    List.Sublist
      (get_unprocessed_links
        ([⟨1, "general", "u1", false⟩, ⟨2, "general", "u2", true⟩,
          ⟨3, "dev", "u3", false⟩] : LinksDb) 10)
      (([⟨1, "general", "u1", false⟩, ⟨2, "general", "u2", true⟩,
          ⟨3, "dev", "u3", false⟩] : LinksDb).map (fun r => (r.id, r.channel_name, r.link))) :=
  c4_dequeue_oldest_first
    ([⟨1, "general", "u1", false⟩, ⟨2, "general", "u2", true⟩,
      ⟨3, "dev", "u3", false⟩] : LinksDb) 10
    (by decide)

/-- C6: payload uniqueness.  Inserting a payload `p` absent from the store
succeeds; the store then holds exactly one item with payload `p`, and a second
`save_link` with the same payload returns the store unchanged together with
the non-inserted outcome (False). -/
theorem c6_enqueue_duplicate_payload (db : LinksDb) (ch1 ch2 p : String)
    (hfresh : db.any (fun r => r.link = p) = false) :
    (save_link db ch1 p).2 = true ∧
    ((save_link db ch1 p).1.filter (fun r => r.link = p)).length = 1 ∧
    save_link (save_link db ch1 p).1 ch2 p = ((save_link db ch1 p).1, false) := by
  have hfilter : db.filter (fun r => decide (r.link = p)) = [] := by
    rw [List.filter_eq_nil_iff]
    intro a ha
    have := List.any_eq_false.mp hfresh a ha
    simpa using this
  refine ⟨?_, ?_, ?_⟩
  · simp [save_link, hfresh]
  · simp [save_link, hfresh, List.filter_append, hfilter]
  · have hdup : ((db ++ ([⟨nextLinkId db, ch1, p, false⟩] : LinksDb)).any
        (fun r => r.link = p)) = true := by
      simp [List.any_append]
    simp [save_link, hfresh, hdup]

/-- Witness for C6: enqueueing the same URL twice into an empty store. -/
theorem c6_witness :
    (save_link [] "general" "https://example.org" ).2 = true ∧
    ((save_link [] "general" "https://example.org" ).1.filter
      (fun r => r.link = "https://example.org")).length = 1 ∧
    save_link (save_link [] "general" "https://example.org" ).1 "dev" "https://example.org" =
      ((save_link [] "general" "https://example.org" ).1, false) :=
  c6_enqueue_duplicate_payload [] "general" "dev" "https://example.org" (by decide)

/-- C8 counterexample: `mark_link_processed` on an empty store, where no item
with id 5 exists, still returns the success outcome True — the claimed
not-found outcome is never produced (the UPDATE's row count is not checked). -/
theorem c8_counterexample : mark_link_processed [] 5 = ([], true) := rfl

/-- C8 amended: `mark_processed(id)` marks any matching item processed and
returns success; when no item with that id exists it also returns success and
leaves the store unchanged — it does not distinguish a not-found outcome. -/
theorem c8_amended (db : LinksDb) (i : Nat) (habsent : ∀ r ∈ db, r.id ≠ i) :
    (mark_link_processed db i).2 = true ∧ (mark_link_processed db i).1 = db := by
  refine ⟨rfl, ?_⟩
  unfold mark_link_processed
  simp only
  induction db with
  | nil => rfl
  | cons a t ih =>
    have ha : a.id ≠ i := habsent a (List.mem_cons_self a t)
    simp only [List.map_cons, if_neg ha]
    rw [ih (fun r hr => habsent r (List.mem_cons_of_mem a hr))]

/-- Witness for C8's amended claim on a store without the requested id. -/
theorem c8_witness :
    (mark_link_processed ([⟨1, "general", "u1", false⟩] : LinksDb) 7).2 = true ∧
    (mark_link_processed ([⟨1, "general", "u1", false⟩] : LinksDb) 7).1 =
      ([⟨1, "general", "u1", false⟩] : LinksDb) :=
  c8_amended ([⟨1, "general", "u1", false⟩] : LinksDb) 7 (by decide)

/-- C9: `dequeue_batch(N)` returns at most N items, and the result is the
projection of a subsequence of the unprocessed rows only — an item already
marked processed is never returned. -/
theorem c9_dequeue_bound_unprocessed (db : LinksDb) (limit : Nat) :
    (get_unprocessed_links db limit).length ≤ limit ∧
    ∃ rows : List LinkRow,
      List.Sublist rows (db.filter (fun r => !r.processed)) ∧
      (∀ r ∈ rows, r.processed = false) ∧
      get_unprocessed_links db limit = rows.map (fun r => (r.id, r.channel_name, r.link)) := by
  refine ⟨?_, (db.filter (fun r : LinkRow => !r.processed)).take limit,
    List.take_sublist _ _, ?_, rfl⟩
  · unfold get_unprocessed_links
    rw [List.length_map]
    exact List.length_take_le _ _
  · intro r hr
    have hmem : r ∈ db.filter (fun r => !r.processed) :=
      (List.take_sublist _ _).subset hr
    have := List.of_mem_filter hmem
    simpa using this


/-! Helper lemmas about the machine dispatch cycle. -/

theorem add_machine_db_extends (db : MachinesDb) (m : MachineRec) :
    ∃ l, (add_machine db m).1 = db ++ l := by
  unfold add_machine
  split
  · split
    · exact ⟨[], (List.append_nil db).symm⟩
    · exact ⟨_, rfl⟩
  · exact ⟨[], (List.append_nil db).symm⟩

theorem machine_exists_append (db l : MachinesDb) (i : Int)
    (h : machine_exists db i = true) : machine_exists (db ++ l) i = true := by
  unfold machine_exists at *
  rw [List.any_append, h]
  rfl

theorem machine_exists_add_machine (db : MachinesDb) (m : MachineRec) (i : Int)
    (h : machine_exists db i = true) : machine_exists (add_machine db m).1 i = true := by
  obtain ⟨l, hl⟩ := add_machine_db_extends db m
  rw [hl]
  exact machine_exists_append db l i h

theorem countSteps_cons_ne (i mid : Int) (ss : List StepResult)
    (S : List (Int × List StepResult)) (h : mid ≠ i) :
    countSteps i ((mid, ss) :: S) = countSteps i S := by
  unfold countSteps
  rw [List.filter_cons]
  simp [h]

/-- A machine id already present in the Dedup Store is filtered out by
`machine_exists` and contributes no delivery sub-steps on any later cycle. -/
theorem countSteps_check_seen (env : MachineEnv) (feed : List MachineRec) :
    ∀ db i, machine_exists db i = true →
      countSteps i (check_new_machines env db feed).steps = 0 := by
  induction feed with
  | nil => intro db i _; rfl
  | cons m rest ih =>
    intro db i h
    cases hm : m.id with
    | none => simp [check_new_machines, hm, countSteps]
    | some mid =>
      by_cases hex : machine_exists db mid = true
      · simpa [check_new_machines, hm, hex] using ih db i h
      · cases hn : m.name with
        | none =>
          simp [check_new_machines, hm, hex, hn, countSteps]
        | some nm =>
          cases hp : process_new_machine env m with
          | error e => simp [check_new_machines, hm, hex, hn, hp, countSteps]
          | ok ss =>
            have hne : mid ≠ i := by
              intro he
              rw [he] at hex
              exact hex h
            have h2 : machine_exists (add_machine db m).1 i = true :=
              machine_exists_add_machine db m i h
            simp only [check_new_machines, hm, hex, hn, hp, Bool.false_eq_true,
              if_false]
            rw [countSteps_cons_ne _ _ _ _ hne]
            exact ih _ i h2

/-- Splitting a dispatch cycle after a prefix that did not abort: the cycle on
`pre ++ rest` behaves as the cycle on `pre` continued with the cycle on `rest`
from the prefix's resulting store. -/
theorem check_new_machines_append (env : MachineEnv) (pre : List MachineRec) :
    ∀ db rest, (check_new_machines env db pre).aborted = false →
      check_new_machines env db (pre ++ rest) =
        ⟨(check_new_machines env (check_new_machines env db pre).db rest).db,
         (check_new_machines env db pre).dispatched ++
           (check_new_machines env (check_new_machines env db pre).db rest).dispatched,
         (check_new_machines env db pre).steps ++
           (check_new_machines env (check_new_machines env db pre).db rest).steps,
         (check_new_machines env (check_new_machines env db pre).db rest).aborted⟩ := by
  induction pre with
  | nil => intro db rest _; simp [check_new_machines]
  | cons m pre ih =>
    intro db rest h
    cases hm : m.id with
    | none => simp [check_new_machines, hm] at h
    | some mid =>
      by_cases hex : machine_exists db mid = true
      · rw [check_new_machines, hm] at h
        simp only [hex, if_true] at h
        have := ih db rest h
        simp only [List.cons_append, check_new_machines, hm, hex, if_true]
        exact this
      · cases hn : m.name with
        | none => simp [check_new_machines, hm, hex, hn] at h
        | some nm =>
          cases hp : process_new_machine env m with
          | error e => simp [check_new_machines, hm, hex, hn, hp] at h
          | ok ss =>
            have h' : (check_new_machines env (add_machine db m).1 pre).aborted = false := by
              rw [check_new_machines, hm] at h
              simpa [hex, hn, hp] using h
            have := ih (add_machine db m).1 rest h'
            simp only [List.cons_append, check_new_machines, hm, hex, hn, hp,
              Bool.false_eq_true, if_false, List.append_eq]
            rw [this]

/-- C1 counterexample: a fetched challenge whose required field
`release_date` is present but empty fails validation ("missing required
field" by the code's own log line), so `process_new_challenge` returns early
and nothing is delivered — yet `check_new_challenges` still inserts it into
the Dedup Store, and on the next poll it is no longer a dispatch candidate:
it is not retried, contradicting the claim. -/
theorem c1_counterexample :
    let c : ChallengeRec := ⟨some 7, some "CryptoClash", some "Crypto", some "Easy", some ""⟩
    let r1 := check_new_challenges [] [c]
    challengeFieldsValid c = false ∧
    r1.delivered = [] ∧
    challenge_exists r1.db 7 = true ∧
    (check_new_challenges r1.db [c]).delivered = [] ∧
    (check_new_challenges r1.db [c]).db = r1.db := by
  decide

/-- C1 amended: when `process_new_challenge` returns early on validation
failure, the record is skipped for delivery but `check_new_challenges` still
calls `add_challenge`.  If all five metadata keys are present (a field may be
present but empty/falsy), the insert succeeds, so the record is in the Dedup
Store and does not reappear as a dispatch candidate on the next poll; only
when a metadata key is entirely absent does the insert itself fail (the
KeyError is caught inside `add_challenge`), leaving the store unchanged so
that the record is retried. -/
theorem c1_amended (db : ChallengesDb) (c : ChallengeRec) (cid : Int) (nm : String)
    (hid : c.id = some cid) (hname : c.name = some nm)
    (hinvalid : challengeFieldsValid c = false)
    (hfresh : challenge_exists db cid = false) :
    (check_new_challenges db [c]).aborted = false ∧
    (check_new_challenges db [c]).delivered = [] ∧
    (challengeKeysComplete c = true →
      challenge_exists (check_new_challenges db [c]).db cid = true ∧
      (check_new_challenges (check_new_challenges db [c]).db [c]).delivered = [] ∧
      (check_new_challenges (check_new_challenges db [c]).db [c]).db =
        (check_new_challenges db [c]).db) ∧
    (challengeKeysComplete c = false → (check_new_challenges db [c]).db = db) := by
  have hone : check_new_challenges db [c] = ⟨(add_challenge db c).1, [], false⟩ := by
    simp [check_new_challenges, hid, hfresh, hname, process_new_challenge, hinvalid]
  refine ⟨by rw [hone], by rw [hone], ?_, ?_⟩
  · intro hkeys
    obtain ⟨d, hd⟩ : ∃ d, c.difficulty = some d := by
      cases h : c.difficulty with
      | none => rw [challengeKeysComplete, h] at hkeys; simp at hkeys
      | some d => exact ⟨d, rfl⟩
    obtain ⟨cat, hcat⟩ : ∃ cat, c.category_name = some cat := by
      cases h : c.category_name with
      | none => rw [challengeKeysComplete, h] at hkeys; simp at hkeys
      | some cat => exact ⟨cat, rfl⟩
    obtain ⟨rel, hrel⟩ : ∃ rel, c.release_date = some rel := by
      cases h : c.release_date with
      | none => rw [challengeKeysComplete, h] at hkeys; simp at hkeys
      | some rel => exact ⟨rel, rfl⟩
    have hadd : (add_challenge db c).1 = db ++ [⟨cid, nm, d, cat, rel⟩] := by
      unfold add_challenge
      rw [hid, hname, hd, hcat, hrel]
      simp [hfresh]
    have hex2 : challenge_exists (add_challenge db c).1 cid = true := by
      rw [hadd]
      unfold challenge_exists
      rw [List.any_append]
      simp
    rw [hone]
    exact ⟨hex2, by simp [check_new_challenges, hid, hex2], by
      simp [check_new_challenges, hid, hex2]⟩
  · intro hkeys
    rw [hone]
    cases hd : c.difficulty with
    | none => simp [add_challenge, hid, hname, hd]
    | some d =>
      cases hcat : c.category_name with
      | none => simp [add_challenge, hid, hname, hd, hcat]
      | some cat =>
        cases hrel : c.release_date with
        | none => simp [add_challenge, hid, hname, hd, hcat, hrel]
        | some rel =>
          rw [challengeKeysComplete, hid, hname, hd, hcat, hrel] at hkeys
          simp at hkeys

/-- Witness for C1's amended claim: a challenge with an empty (falsy but
present) release_date is inserted despite failing validation, and is not a
candidate on the next poll. -/
theorem c1_witness :
    (check_new_challenges []
      [⟨some 11, some "PwnPark", some "Pwn", some "Easy", some ""⟩]).aborted = false ∧
    (check_new_challenges []
      [⟨some 11, some "PwnPark", some "Pwn", some "Easy", some ""⟩]).delivered = [] ∧
    (challengeKeysComplete ⟨some 11, some "PwnPark", some "Pwn", some "Easy", some ""⟩ = true →
      challenge_exists (check_new_challenges []
        [⟨some 11, some "PwnPark", some "Pwn", some "Easy", some ""⟩]).db 11 = true ∧
      (check_new_challenges (check_new_challenges []
          [⟨some 11, some "PwnPark", some "Pwn", some "Easy", some ""⟩]).db
        [⟨some 11, some "PwnPark", some "Pwn", some "Easy", some ""⟩]).delivered = [] ∧
      (check_new_challenges (check_new_challenges []
          [⟨some 11, some "PwnPark", some "Pwn", some "Easy", some ""⟩]).db
        [⟨some 11, some "PwnPark", some "Pwn", some "Easy", some ""⟩]).db =
        (check_new_challenges []
          [⟨some 11, some "PwnPark", some "Pwn", some "Easy", some ""⟩]).db) ∧
    (challengeKeysComplete ⟨some 11, some "PwnPark", some "Pwn", some "Easy", some ""⟩ = false →
      (check_new_challenges []
        [⟨some 11, some "PwnPark", some "Pwn", some "Easy", some ""⟩]).db = []) :=
  c1_amended [] ⟨some 11, some "PwnPark", some "Pwn", some "Easy", some ""⟩ 11 "PwnPark"
    rfl rfl (by decide) rfl

/-- C2 counterexample: a fully well-formed machine (which vacuously passes
validation — the machine watcher has none) whose announcement sub-step fails
by raising (the unguarded `channel.send`): the exception escapes
`process_new_machine`, the cycle aborts before `add_machine`, the record is
NOT inserted into the Dedup Store, and it is dispatched again on the next
poll — so insertion does not happen "regardless of the delivery outcome". -/
theorem c2_counterexample :
    let env : MachineEnv := ⟨true, true, true, true, true, true, fun _ => true,
      true, true, true⟩
    let m : MachineRec := ⟨some 1, some "Box", some "Linux", some "Easy",
      some "2030-01-03T19:00:00"⟩
    let r1 := check_new_machines env [] [m]
    r1.dispatched = [1] ∧
    r1.aborted = true ∧
    machine_exists r1.db 1 = false ∧
    (check_new_machines env r1.db [m]).dispatched = [1] := by
  decide

/-- C2 amended: an unseen machine is inserted into the Dedup Store after the
Notifier call whenever that call returns normally — in particular when its
sub-steps fail in the handled ways (skipped or failed announcement, failed
event creation, failed thread creation) — provided the record's five metadata
keys are present so that the insert itself succeeds; the record is then never
re-dispatched.  (A delivery sub-step that raises, or an insert on a record
with an absent key, escapes this guarantee, as the counterexample shows.) -/
theorem c2_amended (env : MachineEnv) (db : MachinesDb) (m : MachineRec) (mid : Int)
    (nm osname diff rel : String) (ss : List StepResult)
    (hid : m.id = some mid) (hname : m.name = some nm) (hos : m.os = some osname)
    (hdiff : m.difficulty_text = some diff) (hrel : m.release = some rel)
    (hproc : process_new_machine env m = .ok ss)
    (hnew : machine_exists db mid = false) :
    (check_new_machines env db [m]).aborted = false ∧
    (check_new_machines env db [m]).steps = [(mid, ss)] ∧
    machine_exists (check_new_machines env db [m]).db mid = true ∧
    check_new_machines env (check_new_machines env db [m]).db [m] =
      ⟨(check_new_machines env db [m]).db, [], [], false⟩ := by
  have hone : check_new_machines env db [m] =
      ⟨(add_machine db m).1, [mid], [(mid, ss)], false⟩ := by
    simp [check_new_machines, hid, hnew, hname, hproc]
  have hadd : (add_machine db m).1 = db ++ [⟨mid, nm, osname, diff, rel⟩] := by
    unfold add_machine
    rw [hid, hname, hos, hdiff, hrel]
    simp [hnew]
  have hex2 : machine_exists (add_machine db m).1 mid = true := by
    rw [hadd]
    unfold machine_exists
    rw [List.any_append]
    simp
  refine ⟨by rw [hone], by rw [hone], by rw [hone]; exact hex2, ?_⟩
  rw [hone]
  simp [check_new_machines, hid, hex2]

/-- Witness for C2's amended claim: all three delivery sub-steps fail in
their handled ways (announcement skipped on an unresolvable channel, event
creation and thread creation reported failed by their helpers), and the
machine is still marked seen and never re-dispatched. -/
theorem c2_witness :
    let env : MachineEnv := ⟨true, true, true, false, false, true, fun _ => true,
      false, true, false⟩
    let m : MachineRec := ⟨some 1, some "Box", some "Linux", some "Easy",
      some "2030-01-03T19:00:00"⟩
    (check_new_machines env [] [m]).aborted = false ∧
    (check_new_machines env [] [m]).steps =
      [(1, [StepResult.announce false, StepResult.eventCreate false,
        StepResult.threadCreate false])] ∧
    machine_exists (check_new_machines env [] [m]).db 1 = true ∧
    check_new_machines env (check_new_machines env [] [m]).db [m] =
      ⟨(check_new_machines env [] [m]).db, [], [], false⟩ :=
  c2_amended ⟨true, true, true, false, false, true, fun _ => true, false, true, false⟩
    [] ⟨some 1, some "Box", some "Linux", some "Easy", some "2030-01-03T19:00:00"⟩
    1 "Box" "Linux" "Easy" "2030-01-03T19:00:00"
    [StepResult.announce false, StepResult.eventCreate false, StepResult.threadCreate false]
    rfl rfl rfl rfl rfl rfl rfl

/-- C3 counterexample: with the default 600-second poll interval, a transient
fetch failure (HTTP 500, and likewise a network error) makes the watcher
sleep exactly the configured poll interval — not a short fixed backoff
different from it (the fixed 60-second backoff is reserved for exceptions
escaping the dispatch step, and 600 is not 60). -/
theorem c3_counterexample :
    let env : MachineEnv := ⟨true, true, true, true, false, true, fun _ => true,
      true, true, true⟩
    (monitor_iteration env 600 [] (.httpFailure 500)).sleepSeconds = 600 ∧
    (monitor_iteration env 600 [] .networkFailure).sleepSeconds = 600 ∧
    (600 : Nat) ≠ 60 := by
  decide

/-- C3 amended: a transient `fetch` failure (non-2xx response or network
error) is logged inside `fetch_machines`, which returns an empty list; the
dispatch cycle then completes normally with no effect on the Dedup Store and
no dispatches, and the watcher sleeps the configured poll interval before
polling again — the failure never escalates out of the loop, and the short
fixed 60-second backoff is not taken (it applies only to exceptions escaping
the dispatch step itself). -/
theorem c3_amended (env : MachineEnv) (poll_interval : Nat) (db : MachinesDb)
    (status : Nat) :
    monitor_iteration env poll_interval db (.httpFailure status) =
      ⟨db, [], [], poll_interval⟩ ∧
    monitor_iteration env poll_interval db .networkFailure =
      ⟨db, [], [], poll_interval⟩ := by
  constructor <;> rfl

/-- C5 counterexample: a machine record unchanged across two consecutive
polls, with its `release` key absent, is delivered in BOTH polls: the
delivery sub-steps run (the forum thread is even created successfully,
twice), but `add_machine`'s INSERT reads `machine['release']`, the KeyError
is caught, nothing is inserted, and the dedup check cannot filter the record
on the second poll. -/
theorem c5_counterexample :
    let env : MachineEnv := ⟨true, true, true, false, false, false, fun _ => true,
      true, true, true⟩
    let m : MachineRec := ⟨some 1, some "Box", some "Linux", some "Easy", none⟩
    let r1 := check_new_machines env [] [m]
    let r2 := check_new_machines env r1.db [m]
    r1.steps = [(1, [StepResult.announce false, StepResult.eventCreate false,
      StepResult.threadCreate true])] ∧
    r2.steps = r1.steps ∧
    r1.db = [] ∧
    countSteps 1 (r1.steps ++ r2.steps) = 2 := by
  decide

/-- C5 amended: deliver is invoked at most once across consecutive polls for
every unchanged record whose Dedup-Store insert succeeds — in particular
every record with its five metadata keys present: after its first delivery
the id is recorded as seen, and the dedup check filters it out of every later
poll, whatever that poll's feed is.  (A record whose insert fails because a
metadata key is absent can be re-delivered, as the counterexample shows.) -/
theorem c5_amended (env : MachineEnv) (db0 : MachinesDb) (feed2 : List MachineRec)
    (m : MachineRec) (mid : Int) (nm osname diff rel : String) (ss : List StepResult)
    (hid : m.id = some mid) (hname : m.name = some nm) (hos : m.os = some osname)
    (hdiff : m.difficulty_text = some diff) (hrel : m.release = some rel)
    (hproc : process_new_machine env m = .ok ss)
    (hnew : machine_exists db0 mid = false) :
    countSteps mid (check_new_machines env db0 [m]).steps = 1 ∧
    countSteps mid
      (check_new_machines env (check_new_machines env db0 [m]).db feed2).steps = 0 := by
  have hone : check_new_machines env db0 [m] =
      ⟨(add_machine db0 m).1, [mid], [(mid, ss)], false⟩ := by
    simp [check_new_machines, hid, hnew, hname, hproc]
  have hadd : (add_machine db0 m).1 = db0 ++ [⟨mid, nm, osname, diff, rel⟩] := by
    unfold add_machine
    rw [hid, hname, hos, hdiff, hrel]
    simp [hnew]
  have hex2 : machine_exists (add_machine db0 m).1 mid = true := by
    rw [hadd]
    unfold machine_exists
    rw [List.any_append]
    simp
  rw [hone]
  constructor
  · unfold countSteps
    simp
  · exact countSteps_check_seen env feed2 _ mid hex2

/-- Witness for C5's amended claim: poll 1 delivers the machine once; poll 2,
whose feed repeats it next to a genuinely new machine, delivers it zero
times. -/
theorem c5_witness :
    let env : MachineEnv := ⟨true, true, true, false, false, false, fun _ => true,
      true, true, true⟩
    let m : MachineRec := ⟨some 1, some "Box", some "Linux", some "Easy",
      some "2030-01-03T19:00:00"⟩
    let m2 : MachineRec := ⟨some 2, some "Box2", some "Windows", some "Hard",
      some "2030-01-10T19:00:00"⟩
    countSteps 1 (check_new_machines env [] [m]).steps = 1 ∧
    countSteps 1
      (check_new_machines env (check_new_machines env [] [m]).db [m, m2]).steps = 0 :=
  c5_amended ⟨true, true, true, false, false, false, fun _ => true, true, true, true⟩
    [] [⟨some 1, some "Box", some "Linux", some "Easy", some "2030-01-03T19:00:00"⟩,
        ⟨some 2, some "Box2", some "Windows", some "Hard", some "2030-01-10T19:00:00"⟩]
    ⟨some 1, some "Box", some "Linux", some "Easy", some "2030-01-03T19:00:00"⟩
    1 "Box" "Linux" "Easy" "2030-01-03T19:00:00"
    [StepResult.announce false, StepResult.eventCreate false, StepResult.threadCreate true]
    rfl rfl rfl rfl rfl rfl rfl

/-- C7: with `max_restarts = 3` and a watcher that always fails immediately,
the Supervisor performs exactly restart attempts 1, 2 and 3 (incrementing
`restart_count` each time) and then stops permanently — a 4th restart is
never started. -/
theorem c7_restart_bound :
    restart_trace 3 0 = [.restartAttempt 1, .restartAttempt 2, .restartAttempt 3,
      .stoppedPermanently] := by
  rw [restart_trace, restart_trace, restart_trace, restart_trace]
  norm_num

/-- C10: the machine watcher's dispatch cycle performs no per-record
validation and reads `machine['id']` unconditionally, so a fetched machine
lacking `id` raises, the whole cycle aborts, and the records after it in the
same fetched list are neither delivered nor marked seen, while the records
before it have already been processed (the cycle's store, dispatch log and
delivery log are exactly the prefix's).  By contrast the challenge watcher
skips a validation-failing record per-record: its cycle neither aborts at
that record nor loses the rest of the list. -/
theorem c10_missing_id_aborts_cycle (env : MachineEnv) (db : MachinesDb)
    (pre post : List MachineRec) (m : MachineRec) (hm : m.id = none)
    (hpre : (check_new_machines env db pre).aborted = false)
    (cdb : ChallengesDb) (c : ChallengeRec) (crest : List ChallengeRec)
    (cid : Int) (cnm : String) (hcid : c.id = some cid) (hcname : c.name = some cnm)
    (hcfresh : challenge_exists cdb cid = false)
    (hcinvalid : challengeFieldsValid c = false) :
    (check_new_machines env db (pre ++ m :: post)).aborted = true ∧
    (check_new_machines env db (pre ++ m :: post)).db =
      (check_new_machines env db pre).db ∧
    (check_new_machines env db (pre ++ m :: post)).steps =
      (check_new_machines env db pre).steps ∧
    (check_new_machines env db (pre ++ m :: post)).dispatched =
      (check_new_machines env db pre).dispatched ∧
    (check_new_challenges cdb (c :: crest)).aborted =
      (check_new_challenges (add_challenge cdb c).1 crest).aborted ∧
    (check_new_challenges cdb (c :: crest)).delivered =
      (check_new_challenges (add_challenge cdb c).1 crest).delivered := by
  have hsplit := check_new_machines_append env pre db (m :: post) hpre
  have habort : check_new_machines env (check_new_machines env db pre).db (m :: post) =
      ⟨(check_new_machines env db pre).db, [], [], true⟩ := by
    simp [check_new_machines, hm]
  rw [hsplit, habort]
  refine ⟨rfl, rfl, List.append_nil _, List.append_nil _, ?_, ?_⟩
  · simp [check_new_challenges, hcid, hcfresh, hcname]
  · simp [check_new_challenges, hcid, hcfresh, hcname, process_new_challenge, hcinvalid]

/-- Witness for C10: a three-machine feed whose middle record lacks `id`
aborts after the first record, and a validation-failing challenge is skipped
per-record while its cycle continues. -/
theorem c10_witness :
    let env : MachineEnv := ⟨true, true, true, true, false, true, fun _ => true,
      true, true, true⟩
    let m1 : MachineRec := ⟨some 1, some "Alpha", some "Linux", some "Easy",
      some "2030-01-03T19:00:00"⟩
    let m : MachineRec := ⟨none, some "Beta", some "Linux", some "Easy",
      some "2030-01-10T19:00:00"⟩
    let m3 : MachineRec := ⟨some 3, some "Gamma", some "Windows", some "Hard",
      some "2030-01-17T19:00:00"⟩
    let c : ChallengeRec := ⟨some 9, some "Riddle", some "Crypto", some "Easy", some ""⟩
    let c2 : ChallengeRec := ⟨some 10, some "WebOne", some "Web", some "Easy",
      some "2030-02-01T19:00:00"⟩
    (check_new_machines env [] ([m1] ++ m :: [m3])).aborted = true ∧
    (check_new_machines env [] ([m1] ++ m :: [m3])).db =
      (check_new_machines env [] [m1]).db ∧
    (check_new_machines env [] ([m1] ++ m :: [m3])).steps =
      (check_new_machines env [] [m1]).steps ∧
    (check_new_machines env [] ([m1] ++ m :: [m3])).dispatched =
      (check_new_machines env [] [m1]).dispatched ∧
    (check_new_challenges [] (c :: [c2])).aborted =
      (check_new_challenges (add_challenge [] c).1 [c2]).aborted ∧
    (check_new_challenges [] (c :: [c2])).delivered =
      (check_new_challenges (add_challenge [] c).1 [c2]).delivered :=
  c10_missing_id_aborts_cycle
    ⟨true, true, true, true, false, true, fun _ => true, true, true, true⟩
    [] [⟨some 1, some "Alpha", some "Linux", some "Easy", some "2030-01-03T19:00:00"⟩]
    [⟨some 3, some "Gamma", some "Windows", some "Hard", some "2030-01-17T19:00:00"⟩]
    ⟨none, some "Beta", some "Linux", some "Easy", some "2030-01-10T19:00:00"⟩
    rfl (by decide)
    [] ⟨some 9, some "Riddle", some "Crypto", some "Easy", some ""⟩
    [⟨some 10, some "WebOne", some "Web", some "Easy", some "2030-02-01T19:00:00"⟩]
    9 "Riddle" rfl rfl rfl (by decide)
